import Mathlib

/-!
Verification development for the cloud-native monitoring application.

The repository has two Python source files:
* `app.py` — a Flask dashboard exposing system metrics, an alert-message
  classifier and a health endpoint;
* `eks.py` — a Kubernetes provisioning script creating a Namespace,
  ConfigMap, Deployment, Service and HorizontalPodAutoscaler in a fixed
  order against the cluster control plane.

We shallowly embed both files.  Metric percentages are modelled as
rationals; control-plane calls are modelled by an environment function
answering each call with `none` (success) or `some s` (an `ApiException`
with status code `s`), and each routine returns the list of calls it
issued, the status lines it printed, and either a normal return or the
status of an uncaught exception.
-/

namespace CloudMonitoring

/-! ## Embedding of `app.py` -/

namespace App

/-- Python's `round` rounds half to even (banker's rounding); used by
`round(x, 1)` in `get_disk_usage`. -/
def round_half_to_even (q : ℚ) : ℤ :=
  if q - ⌊q⌋ = 1 / 2 then (if 2 ∣ ⌊q⌋ then ⌊q⌋ else ⌊q⌋ + 1) else round q

/-- Python's `round(x, 1)`: round to one decimal digit, ties to even. -/
def python_round_1 (q : ℚ) : ℚ := (round_half_to_even (q * 10) : ℚ) / 10

/-- Result object of `psutil.disk_usage('/')`: the fields the code reads. -/
structure DiskUsageResult where
  used : ℚ
  total : ℚ
deriving DecidableEq

/-- Function `get_disk_usage` from `app.py`: on success returns
`round((used / total) * 100, 1)`; if the probe raises, the `except`
branch logs the error and returns `0`.  The probe outcome is the input:
`some r` models a successful `psutil.disk_usage('/')`, `none` models the
probe raising an exception. -/
def get_disk_usage (probe : Option DiskUsageResult) : ℚ :=
  match probe with
  | some disk_usage => python_round_1 (disk_usage.used / disk_usage.total * 100)
  | none => 0

/-- Function `get_alert_message` from `app.py`, translated statement by statement:
thresholds 80 and 60, per-metric `if/elif` chains appending to
`critical_services` and `warning_services`, and the final three-way
message selection. -/
def get_alert_message (cpu_metric mem_metric disk_metric : ℚ) : String :=
  let critical_threshold : ℚ := 80
  let warning_threshold : ℚ := 60
  let critical_services : List String := []
  let warning_services : List String := []
  let (critical_services, warning_services) :=
    if cpu_metric > critical_threshold then (critical_services ++ ["CPU"], warning_services)
    else if cpu_metric > warning_threshold then (critical_services, warning_services ++ ["CPU"])
    else (critical_services, warning_services)
  let (critical_services, warning_services) :=
    if mem_metric > critical_threshold then (critical_services ++ ["Memory"], warning_services)
    else if mem_metric > warning_threshold then (critical_services, warning_services ++ ["Memory"])
    else (critical_services, warning_services)
  let (critical_services, warning_services) :=
    if disk_metric > critical_threshold then (critical_services ++ ["Disk"], warning_services)
    else if disk_metric > warning_threshold then (critical_services, warning_services ++ ["Disk"])
    else (critical_services, warning_services)
  if critical_services ≠ [] then
    "🚨 CRITICAL: High " ++ String.intercalate ", " critical_services ++
      " usage detected! Consider scaling up or optimizing resources."
  else if warning_services ≠ [] then
    "⚠️ WARNING: Elevated " ++ String.intercalate ", " warning_services ++
      " usage detected. Monitor closely."
  else
    "✅ All systems operating normally."

/-- Severity level of one metric, following the spec's words:
`>80` critical, `>60` and `≤80` warning, else normal. -/
inductive Level where
  | critical
  | warning
  | normal
deriving DecidableEq

/-- Spec-side classifier of a single utilization percentage. -/
def classify (x : ℚ) : Level :=
  if x > 80 then Level.critical else if x > 60 then Level.warning else Level.normal

/-- Spec-side list of the names of critical metrics, in CPU, Memory, Disk
order. -/
def critical_names (c m d : ℚ) : List String :=
  (if classify c = Level.critical then ["CPU"] else []) ++
  (if classify m = Level.critical then ["Memory"] else []) ++
  (if classify d = Level.critical then ["Disk"] else [])

/-- Spec-side list of the names of warning-level metrics, in CPU, Memory,
Disk order. -/
def warning_names (c m d : ℚ) : List String :=
  (if classify c = Level.warning then ["CPU"] else []) ++
  (if classify m = Level.warning then ["Memory"] else []) ++
  (if classify d = Level.warning then ["Disk"] else [])

/-- Spec-side alert message, written from the spec's words: if any metric
is critical, one critical alert listing exactly the critical metric names;
else if any is warning, one warning listing exactly the warning names;
else the nominal-status message. -/
def spec_alert_message (c m d : ℚ) : String :=
  if critical_names c m d ≠ [] then
    "🚨 CRITICAL: High " ++ String.intercalate ", " (critical_names c m d) ++
      " usage detected! Consider scaling up or optimizing resources."
  else if warning_names c m d ≠ [] then
    "⚠️ WARNING: Elevated " ++ String.intercalate ", " (warning_names c m d) ++
      " usage detected. Monitor closely."
  else
    "✅ All systems operating normally."

/-- Inputs of one `api_metrics` request: each field records the value a
`psutil`/`os` query returns during the request; the disk probe may fail
(`none`). -/
structure SystemSample where
  timestamp : String
  cpu_percent : ℚ
  memory_percent : ℚ
  disk : Option DiskUsageResult
  memory_total : ℕ
  memory_available : ℕ
  cpu_count : ℕ
  load_average : List ℚ

/-- The JSON payload assembled by `api_metrics` in `app.py`. -/
structure Metrics where
  timestamp : String
  cpu_percent : ℚ
  memory_percent : ℚ
  disk_percent : ℚ
  memory_total : ℕ
  memory_available : ℕ
  cpu_count : ℕ
  load_average : List ℚ

/-- Endpoint `api_metrics` from `app.py`: assembles the metrics dictionary; the
disk percentage goes through `get_disk_usage`. -/
def api_metrics (s : SystemSample) : Metrics :=
  ⟨s.timestamp, s.cpu_percent, s.memory_percent, get_disk_usage s.disk,
    s.memory_total, s.memory_available, s.cpu_count, s.load_average⟩

end App

/-! ## Embedding of `eks.py`

The kubernetes client model classes are embedded as structures carrying
exactly the fields `eks.py` sets.  Python's keyword `namespace` argument
is rendered as `nspace`. -/

namespace Eks

/-- Model of `client.V1ObjectMeta`: name and (optional) labels. -/
structure V1ObjectMeta where
  name : String
  labels : List (String × String) := []
deriving DecidableEq

/-- Model of `client.V1Namespace`. -/
structure V1Namespace where
  metadata : V1ObjectMeta
deriving DecidableEq

/-- Model of `client.V1ConfigMap`. -/
structure V1ConfigMap where
  metadata : V1ObjectMeta
  data : List (String × String)
deriving DecidableEq

/-- Model of `client.V1ConfigMapKeySelector`. -/
structure V1ConfigMapKeySelector where
  name : String
  key : String
deriving DecidableEq

/-- Model of `client.V1EnvVarSource`. -/
structure V1EnvVarSource where
  config_map_key_ref : V1ConfigMapKeySelector
deriving DecidableEq

/-- Model of `client.V1EnvVar`. -/
structure V1EnvVar where
  name : String
  value_from : V1EnvVarSource
deriving DecidableEq

/-- Model of `client.V1ContainerPort`. -/
structure V1ContainerPort where
  container_port : ℕ
  name : String
deriving DecidableEq

/-- Model of `client.V1ResourceRequirements`. -/
structure V1ResourceRequirements where
  requests : List (String × String)
  limits : List (String × String)
deriving DecidableEq

/-- Model of `client.V1HTTPGetAction`. -/
structure V1HTTPGetAction where
  path : String
  port : ℕ
deriving DecidableEq

/-- Model of `client.V1Probe`. -/
structure V1Probe where
  http_get : V1HTTPGetAction
  initial_delay_seconds : ℕ
  period_seconds : ℕ
deriving DecidableEq

/-- Model of `client.V1SecurityContext`. -/
structure V1SecurityContext where
  run_as_non_root : Bool
  run_as_user : ℕ
  read_only_root_filesystem : Bool
deriving DecidableEq

/-- Model of `client.V1PodSecurityContext`. -/
structure V1PodSecurityContext where
  fs_group : ℕ
deriving DecidableEq

/-- Model of `client.V1Container`: the fields `create_deployment` sets. -/
structure V1Container where
  name : String
  image : String
  ports : List V1ContainerPort
  env : List V1EnvVar
  resources : V1ResourceRequirements
  liveness_probe : V1Probe
  readiness_probe : V1Probe
  security_context : V1SecurityContext
deriving DecidableEq

/-- Model of `client.V1PodSpec`. -/
structure V1PodSpec where
  containers : List V1Container
  security_context : V1PodSecurityContext
deriving DecidableEq

/-- Model of `client.V1PodTemplateSpec`. -/
structure V1PodTemplateSpec where
  metadata : V1ObjectMeta
  spec : V1PodSpec
deriving DecidableEq

/-- Model of `client.V1LabelSelector`. -/
structure V1LabelSelector where
  match_labels : List (String × String)
deriving DecidableEq

/-- Model of `client.V1DeploymentSpec`. -/
structure V1DeploymentSpec where
  replicas : ℕ
  selector : V1LabelSelector
  template : V1PodTemplateSpec
deriving DecidableEq

/-- Model of `client.V1Deployment`. -/
structure V1Deployment where
  metadata : V1ObjectMeta
  spec : V1DeploymentSpec
deriving DecidableEq

/-- Model of `client.V1ServicePort`. -/
structure V1ServicePort where
  port : ℕ
  target_port : ℕ
  protocol : String
  name : String
deriving DecidableEq

/-- Model of `client.V1ServiceSpec`. -/
structure V1ServiceSpec where
  type : String
  selector : List (String × String)
  ports : List V1ServicePort
deriving DecidableEq

/-- Model of `client.V1Service`. -/
structure V1Service where
  metadata : V1ObjectMeta
  spec : V1ServiceSpec
deriving DecidableEq

/-- Model of `client.V2CrossVersionObjectReference`. -/
structure V2CrossVersionObjectReference where
  api_version : String
  kind : String
  name : String
deriving DecidableEq

/-- Model of `client.V2MetricTarget`. -/
structure V2MetricTarget where
  type : String
  average_utilization : ℕ
deriving DecidableEq

/-- Model of `client.V2ResourceMetricSource`. -/
structure V2ResourceMetricSource where
  name : String
  target : V2MetricTarget
deriving DecidableEq

/-- Model of `client.V2MetricSpec`. -/
structure V2MetricSpec where
  type : String
  resource : V2ResourceMetricSource
deriving DecidableEq

/-- Model of `client.V2HorizontalPodAutoscalerSpec`. -/
structure V2HorizontalPodAutoscalerSpec where
  scale_target_ref : V2CrossVersionObjectReference
  min_replicas : ℕ
  max_replicas : ℕ
  metrics : List V2MetricSpec
deriving DecidableEq

/-- Model of `client.V2HorizontalPodAutoscaler`. -/
structure V2HorizontalPodAutoscaler where
  metadata : V1ObjectMeta
  spec : V2HorizontalPodAutoscalerSpec
deriving DecidableEq

/-- The API-client objects the script constructs: `client.CoreV1Api()`,
`client.AppsV1Api()` in `main`, and `client.AutoscalingV2Api()` inside
`create_hpa`. -/
inductive ApiClient where
  | coreV1Api
  | appsV1Api
  | autoscalingV2Api
deriving DecidableEq

/-- One control-plane API call with its full argument list (body included). -/
inductive ApiCall where
  | read_namespace (name : String)
  | create_namespace (body : V1Namespace)
  | create_namespaced_config_map (nspace : String) (body : V1ConfigMap)
  | create_namespaced_deployment (nspace : String) (body : V1Deployment)
  | create_namespaced_service (nspace : String) (body : V1Service)
  | create_namespaced_horizontal_pod_autoscaler (nspace : String)
      (body : V2HorizontalPodAutoscaler)
deriving DecidableEq

/-- A call event: which client object the call was issued through, and the
call itself. -/
structure CallEv where
  client : ApiClient
  call : ApiCall
deriving DecidableEq

/-- The control plane's answer to each call in a run: `none` models a
successful call, `some s` models the call raising
`client.exceptions.ApiException` with `status = s`. -/
abbrev Env := ApiCall → Option ℕ

/-- The five resource kinds the script provisions. -/
inductive Res where
  | ns
  | cm
  | dep
  | svc
  | hpa
deriving DecidableEq

/-- A per-resource status line printed by a routine: `created r` models
the "created" print, `alreadyExists r` the "already exists" print. -/
inductive LogLine where
  | created (r : Res)
  | alreadyExists (r : Res)
deriving DecidableEq

/-- Observable outcome of running a routine (or the whole `main`): the
calls it issued in order, the per-resource status lines it printed, and
`none` for a normal return or `some s` for an uncaught `ApiException`
with status `s`. -/
structure RunOut where
  trace : List CallEv
  logs : List LogLine
  result : Option ℕ
deriving DecidableEq

/-- Sequencing of two Python statements: if the first raises, the second
never runs and the exception propagates. -/
def RunOut.andThen (a : RunOut) (b : Unit → RunOut) : RunOut :=
  match a.result with
  | some _ => a
  | none => ⟨a.trace ++ (b ()).trace, a.logs ++ (b ()).logs, (b ()).result⟩

/-- Routine `create_namespace` from `eks.py`: read the namespace; on success print
"already exists"; on an `ApiException` with status 404, create it.  Note
the `except` block has no `else` branch: an `ApiException` whose status
is not 404 is caught and silently dropped, and the function returns
normally.  An exception raised by the inner create call is not caught. -/
def create_namespace (api_instance : ApiClient) (namespace_name : String)
    (env : Env) : RunOut :=
  match env (ApiCall.read_namespace namespace_name) with
  | none =>
    ⟨[⟨api_instance, ApiCall.read_namespace namespace_name⟩],
      [LogLine.alreadyExists Res.ns], none⟩
  | some s =>
    if s = 404 then
      let nspace : V1Namespace := ⟨⟨namespace_name, []⟩⟩
      match env (ApiCall.create_namespace nspace) with
      | none =>
        ⟨[⟨api_instance, ApiCall.read_namespace namespace_name⟩,
          ⟨api_instance, ApiCall.create_namespace nspace⟩],
          [LogLine.created Res.ns], none⟩
      | some s2 =>
        ⟨[⟨api_instance, ApiCall.read_namespace namespace_name⟩,
          ⟨api_instance, ApiCall.create_namespace nspace⟩], [], some s2⟩
    else
      ⟨[⟨api_instance, ApiCall.read_namespace namespace_name⟩], [], none⟩

/-- The `config_data` dictionary from `create_configmap`. -/
def config_data : List (String × String) :=
  [("FLASK_ENV", "production"), ("REFRESH_INTERVAL", "30")]

/-- The ConfigMap body built by `create_configmap`. -/
def configmap : V1ConfigMap := ⟨⟨"monitoring-app-config", []⟩, config_data⟩

/-- Routine `create_configmap` from `eks.py`: attempt creation; status 409 prints
"already exists" and returns normally; any other `ApiException` is
re-raised. -/
def create_configmap (api_instance : ApiClient) (nspace : String)
    (env : Env) : RunOut :=
  match env (ApiCall.create_namespaced_config_map nspace configmap) with
  | none =>
    ⟨[⟨api_instance, ApiCall.create_namespaced_config_map nspace configmap⟩],
      [LogLine.created Res.cm], none⟩
  | some s =>
    if s = 409 then
      ⟨[⟨api_instance, ApiCall.create_namespaced_config_map nspace configmap⟩],
        [LogLine.alreadyExists Res.cm], none⟩
    else
      ⟨[⟨api_instance, ApiCall.create_namespaced_config_map nspace configmap⟩],
        [], some s⟩

/-- The Deployment body built by `create_deployment`, parameterised by the
image reference. -/
def deployment (image_uri : String) : V1Deployment :=
  ⟨⟨"monitoring-app", [("app", "monitoring-app"), ("version", "v1")]⟩,
    ⟨2,
      ⟨[("app", "monitoring-app")]⟩,
      ⟨⟨"monitoring-app", [("app", "monitoring-app"), ("version", "v1")]⟩,
        ⟨[⟨"monitoring-app", image_uri,
            [⟨5000, "http"⟩],
            [⟨"FLASK_ENV", ⟨⟨"monitoring-app-config", "FLASK_ENV"⟩⟩⟩],
            ⟨[("memory", "128Mi"), ("cpu", "100m")],
              [("memory", "512Mi"), ("cpu", "500m")]⟩,
            ⟨⟨"/health", 5000⟩, 30, 10⟩,
            ⟨⟨"/health", 5000⟩, 5, 5⟩,
            ⟨true, 1000, true⟩⟩],
          ⟨1000⟩⟩⟩⟩⟩

/-- Routine `create_deployment` from `eks.py`: attempt creation; status 409 prints
"already exists"; any other `ApiException` is re-raised. -/
def create_deployment (api_instance : ApiClient) (nspace : String)
    (image_uri : String) (env : Env) : RunOut :=
  match env (ApiCall.create_namespaced_deployment nspace (deployment image_uri)) with
  | none =>
    ⟨[⟨api_instance,
        ApiCall.create_namespaced_deployment nspace (deployment image_uri)⟩],
      [LogLine.created Res.dep], none⟩
  | some s =>
    if s = 409 then
      ⟨[⟨api_instance,
          ApiCall.create_namespaced_deployment nspace (deployment image_uri)⟩],
        [LogLine.alreadyExists Res.dep], none⟩
    else
      ⟨[⟨api_instance,
          ApiCall.create_namespaced_deployment nspace (deployment image_uri)⟩],
        [], some s⟩

/-- The Service body built by `create_service`. -/
def service : V1Service :=
  ⟨⟨"monitoring-app-service", [("app", "monitoring-app")]⟩,
    ⟨"LoadBalancer", [("app", "monitoring-app")],
      [⟨80, 5000, "TCP", "http"⟩]⟩⟩

/-- Routine `create_service` from `eks.py`: attempt creation; status 409 prints
"already exists"; any other `ApiException` is re-raised. -/
def create_service (api_instance : ApiClient) (nspace : String)
    (env : Env) : RunOut :=
  match env (ApiCall.create_namespaced_service nspace service) with
  | none =>
    ⟨[⟨api_instance, ApiCall.create_namespaced_service nspace service⟩],
      [LogLine.created Res.svc], none⟩
  | some s =>
    if s = 409 then
      ⟨[⟨api_instance, ApiCall.create_namespaced_service nspace service⟩],
        [LogLine.alreadyExists Res.svc], none⟩
    else
      ⟨[⟨api_instance, ApiCall.create_namespaced_service nspace service⟩],
        [], some s⟩

/-- The HorizontalPodAutoscaler body built by `create_hpa`. -/
def hpa : V2HorizontalPodAutoscaler :=
  ⟨⟨"monitoring-app-hpa", []⟩,
    ⟨⟨"apps/v1", "Deployment", "monitoring-app"⟩, 1, 5,
      [⟨"Resource", ⟨"cpu", ⟨"Utilization", 70⟩⟩⟩]⟩⟩

/-- Routine `create_hpa` from `eks.py`.  The `api_instance` parameter (which may
be `None`, hence `Option ApiClient`) is never used: the routine
constructs its own `client.AutoscalingV2Api()` and issues the create call
through it.  Status 409 prints "already exists"; any other
`ApiException` is re-raised. -/
def create_hpa (api_instance : Option ApiClient) (nspace : String)
    (env : Env) : RunOut :=
  let autoscaling_api := ApiClient.autoscalingV2Api
  match env (ApiCall.create_namespaced_horizontal_pod_autoscaler nspace hpa) with
  | none =>
    ⟨[⟨autoscaling_api,
        ApiCall.create_namespaced_horizontal_pod_autoscaler nspace hpa⟩],
      [LogLine.created Res.hpa], none⟩
  | some s =>
    if s = 409 then
      ⟨[⟨autoscaling_api,
          ApiCall.create_namespaced_horizontal_pod_autoscaler nspace hpa⟩],
        [LogLine.alreadyExists Res.hpa], none⟩
    else
      ⟨[⟨autoscaling_api,
          ApiCall.create_namespaced_horizontal_pod_autoscaler nspace hpa⟩],
        [], some s⟩

/-- The built-in default image reference used when `IMAGE_URI` is unset. -/
def default_image : String :=
  "568373317874.dkr.ecr.us-east-1.amazonaws.com/my_monitoring_app_image:latest"

/-- Routine `main` from `eks.py` (the kube-config loading and the informational
banner prints carry no decision logic and are not modelled).  `image_env`
is the value of the `IMAGE_URI` environment variable, defaulted as in the
source; the five per-resource routines run in order, each only if the
previous returned normally.  Note the literal `None` passed to
`create_hpa`. -/
def main (image_env : Option String) (env : Env) : RunOut :=
  let nspace := "monitoring"
  let image_uri := image_env.getD default_image
  let core_v1 := ApiClient.coreV1Api
  let apps_v1 := ApiClient.appsV1Api
  ((((create_namespace core_v1 nspace env).andThen fun _ =>
      create_configmap core_v1 nspace env).andThen fun _ =>
      create_deployment apps_v1 nspace image_uri env).andThen fun _ =>
      create_service core_v1 nspace env).andThen fun _ =>
      create_hpa none nspace env

/-! ### Helper notions for trace reasoning -/

/-- The namespace-read event `main` issues. -/
def readEv : CallEv := ⟨ApiClient.coreV1Api, ApiCall.read_namespace "monitoring"⟩

/-- The namespace-create event `main` can issue. -/
def nsEv : CallEv :=
  ⟨ApiClient.coreV1Api, ApiCall.create_namespace ⟨⟨"monitoring", []⟩⟩⟩

/-- The ConfigMap-create event `main` issues. -/
def cmEv : CallEv :=
  ⟨ApiClient.coreV1Api, ApiCall.create_namespaced_config_map "monitoring" configmap⟩

/-- The Deployment-create event `main` issues (depends on the image). -/
def depEv (image_env : Option String) : CallEv :=
  ⟨ApiClient.appsV1Api,
    ApiCall.create_namespaced_deployment "monitoring"
      (deployment (image_env.getD default_image))⟩

/-- The Service-create event `main` issues. -/
def svcEv : CallEv :=
  ⟨ApiClient.coreV1Api, ApiCall.create_namespaced_service "monitoring" service⟩

/-- The HorizontalPodAutoscaler-create event `main` issues. -/
def hpaEv : CallEv :=
  ⟨ApiClient.autoscalingV2Api,
    ApiCall.create_namespaced_horizontal_pod_autoscaler "monitoring" hpa⟩

/-- Is this event a ConfigMap create? -/
def isCmCreate (ev : CallEv) : Bool :=
  match ev.call with
  | ApiCall.create_namespaced_config_map _ _ => true
  | _ => false

/-- Is this event a Deployment create? -/
def isDepCreate (ev : CallEv) : Bool :=
  match ev.call with
  | ApiCall.create_namespaced_deployment _ _ => true
  | _ => false

/-- Is this event a Service create? -/
def isSvcCreate (ev : CallEv) : Bool :=
  match ev.call with
  | ApiCall.create_namespaced_service _ _ => true
  | _ => false

/-- Is this event an autoscaler create? -/
def isHpaCreate (ev : CallEv) : Bool :=
  match ev.call with
  | ApiCall.create_namespaced_horizontal_pod_autoscaler _ _ => true
  | _ => false

/-- Is this event a namespace create? -/
def isNsCreate (ev : CallEv) : Bool :=
  match ev.call with
  | ApiCall.create_namespace _ => true
  | _ => false

/-- Predicate `precedes`: `precedes p q t = true` means: scanning `t` left to right, no
`q`-event occurs before the first `p`-event; i.e. every `q`-event is
preceded by an earlier completed `p`-event. -/
def precedes (p q : CallEv → Bool) : List CallEv → Bool
  | [] => true
  | e :: rest => if p e then true else if q e then false else precedes p q rest

/-- Does the call target namespace `nspace` (for the namespace resource
itself: is it named `nspace`)? -/
def inNamespace (nspace : String) : ApiCall → Bool
  | ApiCall.read_namespace n => n == nspace
  | ApiCall.create_namespace b => b.metadata.name == nspace
  | ApiCall.create_namespaced_config_map n _ => n == nspace
  | ApiCall.create_namespaced_deployment n _ => n == nspace
  | ApiCall.create_namespaced_service n _ => n == nspace
  | ApiCall.create_namespaced_horizontal_pod_autoscaler n _ => n == nspace

/-! ### Concrete control-plane behaviours used as test inputs -/

/-- Control plane on which the namespace read probe raises status 500 and
every other call succeeds. -/
def env500 : Env := fun c =>
  match c with
  | ApiCall.read_namespace _ => some 500
  | _ => none

/-- Control plane on which every call raises status 503. -/
def envAll503 : Env := fun _ => some 503

/-- Control plane on which the namespace read probe raises 404 and every
other call raises status 503. -/
def env404then503 : Env := fun c =>
  match c with
  | ApiCall.read_namespace _ => some 404
  | _ => some 503

/-- Control plane on which every call succeeds. -/
def envOk : Env := fun _ => none

/-- Control plane on which the namespace read probe raises 404 and every
other call succeeds. -/
def env404 : Env := fun c =>
  match c with
  | ApiCall.read_namespace _ => some 404
  | _ => none

/-- Control plane on which the namespace exists and every create call
raises a 409 conflict. -/
def envAll409 : Env := fun c =>
  match c with
  | ApiCall.read_namespace _ => none
  | ApiCall.create_namespace _ => none
  | _ => some 409

/-- Control plane on which only the ConfigMap create raises status 500. -/
def envCmFail : Env := fun c =>
  match c with
  | ApiCall.create_namespaced_config_map _ _ => some 500
  | _ => none

/-- Control plane on which only the Deployment create raises status 500. -/
def envDepFail : Env := fun c =>
  match c with
  | ApiCall.create_namespaced_deployment _ _ => some 500
  | _ => none

/-- Control plane on which only the Service create raises status 500. -/
def envSvcFail : Env := fun c =>
  match c with
  | ApiCall.create_namespaced_service _ _ => some 500
  | _ => none

/-- Control plane on which the namespace is absent (read raises 404) and
the namespace create raises status 503. -/
def envNsCreateFail : Env := fun c =>
  match c with
  | ApiCall.read_namespace _ => some 404
  | ApiCall.create_namespace _ => some 503
  | _ => none

/-! ### Cluster-state model (ideal control plane) for idempotence -/

/-- Which of the five resources currently exist on the cluster. -/
structure ClusterState where
  ns : Bool
  cm : Bool
  dep : Bool
  svc : Bool
  hpa : Bool
deriving DecidableEq

/-- The ideal control plane over a cluster state: a namespace read
succeeds iff the namespace exists (404 otherwise), and each create
succeeds iff the resource is absent (409 conflict otherwise). -/
def envOfState (σ : ClusterState) : Env := fun c =>
  match c with
  | ApiCall.read_namespace _ => if σ.ns then none else some 404
  | ApiCall.create_namespace _ => if σ.ns then some 409 else none
  | ApiCall.create_namespaced_config_map _ _ => if σ.cm then some 409 else none
  | ApiCall.create_namespaced_deployment _ _ => if σ.dep then some 409 else none
  | ApiCall.create_namespaced_service _ _ => if σ.svc then some 409 else none
  | ApiCall.create_namespaced_horizontal_pod_autoscaler _ _ =>
      if σ.hpa then some 409 else none

/-- Did the trace issue a create call for resource `r`? -/
def createdIn (r : Res) (t : List CallEv) : Bool :=
  t.any fun ev =>
    match r, ev.call with
    | Res.ns, ApiCall.create_namespace _ => true
    | Res.cm, ApiCall.create_namespaced_config_map _ _ => true
    | Res.dep, ApiCall.create_namespaced_deployment _ _ => true
    | Res.svc, ApiCall.create_namespaced_service _ _ => true
    | Res.hpa, ApiCall.create_namespaced_horizontal_pod_autoscaler _ _ => true
    | _, _ => false

/-- The resource set after running the provisioning sequence once against
cluster state `σ`: a resource exists afterwards iff it existed before or
the run issued a create call for it (under `envOfState` a create is only
issued successfully when the resource is absent; a 409 answer changes
nothing, and an already-present resource stays present either way). -/
def runState (image_env : Option String) (σ : ClusterState) : ClusterState :=
  let t := (main image_env (envOfState σ)).trace
  ⟨σ.ns || createdIn Res.ns t, σ.cm || createdIn Res.cm t,
    σ.dep || createdIn Res.dep t, σ.svc || createdIn Res.svc t,
    σ.hpa || createdIn Res.hpa t⟩

/-- Is this call a mutating (create) call, as opposed to a read probe? -/
def isCreateCall (c : ApiCall) : Bool :=
  match c with
  | ApiCall.read_namespace _ => false
  | _ => true

theorem RunOut.andThen_trace (a : RunOut) (b : Unit → RunOut) :
    (a.andThen b).trace =
      a.trace ++ (if a.result = none then (b ()).trace else []) := by
  unfold RunOut.andThen
  cases h : a.result <;> simp [h]

theorem RunOut.andThen_result (a : RunOut) (b : Unit → RunOut) :
    (a.andThen b).result =
      if a.result = none then (b ()).result else a.result := by
  unfold RunOut.andThen
  cases h : a.result <;> simp [h]

theorem RunOut.andThen_logs (a : RunOut) (b : Unit → RunOut) :
    (a.andThen b).logs =
      a.logs ++ (if a.result = none then (b ()).logs else []) := by
  unfold RunOut.andThen
  cases h : a.result <;> simp [h]

theorem create_namespace_trace (api : ApiClient) (nspace : String) (env : Env) :
    (create_namespace api nspace env).trace =
        [⟨api, ApiCall.read_namespace nspace⟩] ∨
      (create_namespace api nspace env).trace =
        [⟨api, ApiCall.read_namespace nspace⟩,
         ⟨api, ApiCall.create_namespace ⟨⟨nspace, []⟩⟩⟩] := by
  unfold create_namespace
  cases h0 : env (ApiCall.read_namespace nspace) with
  | none => exact Or.inl rfl
  | some s =>
    by_cases h : s = 404
    · cases h2 : env (ApiCall.create_namespace ⟨⟨nspace, []⟩⟩) <;>
        · right
          simp [h, h2]
    · left
      simp [h]

theorem create_configmap_trace (api : ApiClient) (nspace : String) (env : Env) :
    (create_configmap api nspace env).trace =
      [⟨api, ApiCall.create_namespaced_config_map nspace configmap⟩] := by
  unfold create_configmap
  cases env (ApiCall.create_namespaced_config_map nspace configmap) with
  | none => rfl
  | some s => by_cases h : s = 409 <;> simp [h]

theorem create_deployment_trace (api : ApiClient) (nspace image_uri : String)
    (env : Env) :
    (create_deployment api nspace image_uri env).trace =
      [⟨api, ApiCall.create_namespaced_deployment nspace (deployment image_uri)⟩] := by
  unfold create_deployment
  cases env (ApiCall.create_namespaced_deployment nspace (deployment image_uri)) with
  | none => rfl
  | some s => by_cases h : s = 409 <;> simp [h]

theorem create_service_trace (api : ApiClient) (nspace : String) (env : Env) :
    (create_service api nspace env).trace =
      [⟨api, ApiCall.create_namespaced_service nspace service⟩] := by
  unfold create_service
  cases env (ApiCall.create_namespaced_service nspace service) with
  | none => rfl
  | some s => by_cases h : s = 409 <;> simp [h]

theorem create_hpa_trace (api : Option ApiClient) (nspace : String) (env : Env) :
    (create_hpa api nspace env).trace =
      [⟨ApiClient.autoscalingV2Api,
        ApiCall.create_namespaced_horizontal_pod_autoscaler nspace hpa⟩] := by
  unfold create_hpa
  cases env (ApiCall.create_namespaced_horizontal_pod_autoscaler nspace hpa) with
  | none => rfl
  | some s => by_cases h : s = 409 <;> simp [h]

theorem create_configmap_result (api : ApiClient) (nspace : String) (env : Env)
    (s : ℕ) (h : env (ApiCall.create_namespaced_config_map nspace configmap) = some s)
    (h409 : s ≠ 409) :
    (create_configmap api nspace env).result = some s := by
  unfold create_configmap
  rw [h]
  simp [h409]

theorem create_deployment_result (api : ApiClient) (nspace image_uri : String)
    (env : Env) (s : ℕ)
    (h : env (ApiCall.create_namespaced_deployment nspace (deployment image_uri)) = some s)
    (h409 : s ≠ 409) :
    (create_deployment api nspace image_uri env).result = some s := by
  unfold create_deployment
  rw [h]
  simp [h409]

theorem create_service_result (api : ApiClient) (nspace : String) (env : Env)
    (s : ℕ) (h : env (ApiCall.create_namespaced_service nspace service) = some s)
    (h409 : s ≠ 409) :
    (create_service api nspace env).result = some s := by
  unfold create_service
  rw [h]
  simp [h409]

theorem create_hpa_result (api : Option ApiClient) (nspace : String) (env : Env)
    (s : ℕ)
    (h : env (ApiCall.create_namespaced_horizontal_pod_autoscaler nspace hpa) = some s)
    (h409 : s ≠ 409) :
    (create_hpa api nspace env).result = some s := by
  unfold create_hpa
  rw [h]
  simp [h409]

/-- When the read probe raises a status other than 404, `create_namespace`
returns normally: no create call, no status line, no exception. -/
theorem create_namespace_swallow (api : ApiClient) (nspace : String) (env : Env)
    (s : ℕ) (h : env (ApiCall.read_namespace nspace) = some s) (h404 : s ≠ 404) :
    create_namespace api nspace env =
      ⟨[⟨api, ApiCall.read_namespace nspace⟩], [], none⟩ := by
  unfold create_namespace
  simp [h, h404]

/-- When the read probe raises 404 and the subsequent namespace create
raises any status, that exception propagates out of `create_namespace`. -/
theorem create_namespace_result_404fail (api : ApiClient) (nspace : String)
    (env : Env) (s : ℕ) (h : env (ApiCall.read_namespace nspace) = some 404)
    (h2 : env (ApiCall.create_namespace ⟨⟨nspace, []⟩⟩) = some s) :
    (create_namespace api nspace env).result = some s := by
  unfold create_namespace
  simp [h, h2]

/-- Gate-form description of `main`'s trace: the namespace routine's
trace, then each later create event guarded by all earlier routines
having returned normally. -/
theorem main_trace (image_env : Option String) (env : Env) :
    (main image_env env).trace =
      (create_namespace ApiClient.coreV1Api "monitoring" env).trace ++
      (if (create_namespace ApiClient.coreV1Api "monitoring" env).result = none then
        cmEv ::
        (if (create_configmap ApiClient.coreV1Api "monitoring" env).result = none then
          depEv image_env ::
          (if (create_deployment ApiClient.appsV1Api "monitoring"
                (image_env.getD default_image) env).result = none then
            svcEv ::
            (if (create_service ApiClient.coreV1Api "monitoring" env).result = none then
              [hpaEv]
            else [])
          else [])
        else [])
      else []) := by
  simp only [main]
  by_cases h1 : (create_namespace ApiClient.coreV1Api "monitoring" env).result = none <;>
    by_cases h2 : (create_configmap ApiClient.coreV1Api "monitoring" env).result = none <;>
    by_cases h3 : (create_deployment ApiClient.appsV1Api "monitoring"
      (image_env.getD default_image) env).result = none <;>
    by_cases h4 : (create_service ApiClient.coreV1Api "monitoring" env).result = none <;>
    simp [RunOut.andThen_trace, RunOut.andThen_result, h1, h2, h3, h4,
      create_configmap_trace, create_deployment_trace, create_service_trace,
      create_hpa_trace, cmEv, depEv, svcEv, hpaEv]

/-- Under the ideal control plane, one run of the provisioning sequence
makes all five resources exist, whatever the starting state. -/
theorem runState_allTrue (image_env : Option String) (σ : ClusterState) :
    runState image_env σ = ⟨true, true, true, true, true⟩ := by
  rcases σ with ⟨n, c, d, s, h⟩
  cases n <;> cases c <;> cases d <;> cases s <;> cases h <;> rfl

/-! ### Claim C1 -/

/-- Claim C1, counterexample: on a control plane whose namespace read
probe raises an `ApiException` with status 500 (≠ 404),
`create_namespace` returns normally (`result = none`) instead of
propagating the error to its caller — the claim's "propagates out of
create_namespace" is false on the code, which has no `else: raise` in
the probe's exception handler. -/
theorem c1_counterexample :
    env500 (ApiCall.read_namespace "monitoring") = some 500 ∧
    (500 : ℕ) ≠ 404 ∧
    (create_namespace ApiClient.coreV1Api "monitoring" env500).result = none ∧
    ¬ (create_namespace ApiClient.coreV1Api "monitoring" env500).result = some 500 := by
  exact ⟨rfl, by decide, rfl, by decide⟩

/-- Claim C1 as amended: for ConfigMap, Deployment, Service and
AutoscalingPolicy an `ApiException` with status ≠ 409 from the create
call propagates unchanged out of the routine, and an exception of any
status from the namespace create call (after a 404 probe) propagates
unchanged; but an `ApiException` with status ≠ 404 raised during
`create_namespace`'s read probe does not propagate: it is silently
swallowed and `create_namespace` returns normally, without attempting a
create and without printing anything. -/
theorem c1_amended (api : ApiClient) (oapi : Option ApiClient)
    (nspace image_uri : String) (env : Env) (s : ℕ) :
    (env (ApiCall.create_namespaced_config_map nspace configmap) = some s →
      s ≠ 409 → (create_configmap api nspace env).result = some s) ∧
    (env (ApiCall.create_namespaced_deployment nspace (deployment image_uri)) = some s →
      s ≠ 409 → (create_deployment api nspace image_uri env).result = some s) ∧
    (env (ApiCall.create_namespaced_service nspace service) = some s →
      s ≠ 409 → (create_service api nspace env).result = some s) ∧
    (env (ApiCall.create_namespaced_horizontal_pod_autoscaler nspace hpa) = some s →
      s ≠ 409 → (create_hpa oapi nspace env).result = some s) ∧
    (env (ApiCall.read_namespace nspace) = some 404 →
      env (ApiCall.create_namespace ⟨⟨nspace, []⟩⟩) = some s →
      (create_namespace api nspace env).result = some s) ∧
    (env (ApiCall.read_namespace nspace) = some s → s ≠ 404 →
      create_namespace api nspace env =
        ⟨[⟨api, ApiCall.read_namespace nspace⟩], [], none⟩) := by
  refine ⟨fun h h409 => create_configmap_result api nspace env s h h409,
    fun h h409 => create_deployment_result api nspace image_uri env s h h409,
    fun h h409 => create_service_result api nspace env s h h409,
    fun h h409 => create_hpa_result oapi nspace env s h h409,
    fun h h2 => create_namespace_result_404fail api nspace env s h h2,
    fun h h404 => create_namespace_swallow api nspace env s h h404⟩

/-- Claim C1, witness: the amended propagation facts evaluated on
concrete control planes (status 503 on creates, 500 on the probe). -/
theorem c1_witness :
    envAll503 (ApiCall.create_namespaced_config_map "monitoring" configmap) = some 503 ∧
    (create_configmap ApiClient.coreV1Api "monitoring" envAll503).result = some 503 ∧
    (create_deployment ApiClient.appsV1Api "monitoring" default_image envAll503).result = some 503 ∧
    (create_service ApiClient.coreV1Api "monitoring" envAll503).result = some 503 ∧
    (create_hpa none "monitoring" envAll503).result = some 503 ∧
    (create_namespace ApiClient.coreV1Api "monitoring" env404then503).result = some 503 ∧
    env500 (ApiCall.read_namespace "monitoring") = some 500 ∧
    create_namespace ApiClient.coreV1Api "monitoring" env500 =
      ⟨[⟨ApiClient.coreV1Api, ApiCall.read_namespace "monitoring"⟩], [], none⟩ := by
  refine ⟨rfl, ?_, ?_, ?_, ?_, ?_, rfl, ?_⟩
  · exact (c1_amended ApiClient.coreV1Api none "monitoring" default_image
      envAll503 503).1 rfl (by decide)
  · exact (c1_amended ApiClient.appsV1Api none "monitoring" default_image
      envAll503 503).2.1 rfl (by decide)
  · exact (c1_amended ApiClient.coreV1Api none "monitoring" default_image
      envAll503 503).2.2.1 rfl (by decide)
  · exact (c1_amended ApiClient.coreV1Api none "monitoring" default_image
      envAll503 503).2.2.2.1 rfl (by decide)
  · exact (c1_amended ApiClient.coreV1Api none "monitoring" default_image
      env404then503 503).2.2.2.2.1 rfl rfl
  · exact (c1_amended ApiClient.coreV1Api none "monitoring" default_image
      env500 500).2.2.2.2.2 rfl (by decide)

/-! ### Claim C2 -/

/-- Claim C2: in `main` the autoscaler is created through a freshly
constructed `AutoscalingV2Api` client and not through the clients used
for every other resource; `main` passes the null argument `none` to
`create_hpa`; and `create_hpa` issues exactly the same call with the same
body whatever its `api_instance` argument is, because the parameter is
never used. -/
theorem c2_hpa_null_client (a b : Option ApiClient) (nspace : String)
    (image_env : Option String) (env : Env) :
    create_hpa a nspace env = create_hpa b nspace env ∧
    main image_env env =
      (((((create_namespace ApiClient.coreV1Api "monitoring" env).andThen fun _ =>
          create_configmap ApiClient.coreV1Api "monitoring" env).andThen fun _ =>
          create_deployment ApiClient.appsV1Api "monitoring"
            (image_env.getD default_image) env).andThen fun _ =>
          create_service ApiClient.coreV1Api "monitoring" env).andThen fun _ =>
          create_hpa none "monitoring" env) ∧
    ((main image_env env).trace.all fun ev =>
      isHpaCreate ev == (ev.client == ApiClient.autoscalingV2Api)) = true := by
  refine ⟨rfl, rfl, ?_⟩
  rcases create_namespace_trace ApiClient.coreV1Api "monitoring" env with ht | ht <;>
    by_cases h1 : (create_namespace ApiClient.coreV1Api "monitoring" env).result = none <;>
    by_cases h2 : (create_configmap ApiClient.coreV1Api "monitoring" env).result = none <;>
    by_cases h3 : (create_deployment ApiClient.appsV1Api "monitoring"
      (image_env.getD default_image) env).result = none <;>
    by_cases h4 : (create_service ApiClient.coreV1Api "monitoring" env).result = none <;>
    rw [main_trace, ht] <;>
    simp [h1, h2, h3, h4, isHpaCreate, cmEv, depEv, svcEv, hpaEv]

/-! ### Claim C3 -/

/-- Claim C3, counterexample: on a control plane whose namespace read
probe fails with status 500 (neither 404 nor 409), the run does NOT
abort: the ConfigMap, Deployment, Service and AutoscalingPolicy create
calls are all still issued, contradicting "no control-plane call for any
later resource in the fixed order is issued". -/
theorem c3_counterexample :
    env500 (ApiCall.read_namespace "monitoring") = some 500 ∧
    (500 : ℕ) ≠ 404 ∧ (500 : ℕ) ≠ 409 ∧
    (main none env500).trace.any isCmCreate = true ∧
    (main none env500).trace.any isDepCreate = true ∧
    (main none env500).trace.any isSvcCreate = true ∧
    (main none env500).trace.any isHpaCreate = true := by
  exact ⟨rfl, by decide, by decide, rfl, rfl, rfl, rfl⟩

/-- Claim C3 as amended: if any create call fails with a status other
than 409 (or the namespace create, reached after a 404 probe, fails with
any status), no control-plane call for any later resource in the order
Namespace, ConfigMap, Deployment, Service, AutoscalingPolicy is issued —
the sequence aborts at that step.  The namespace read probe is the
exception the original claim missed: a probe failure with status ≠ 404
is swallowed and the run continues with the ConfigMap create. -/
theorem c3_amended (image_env : Option String) (env : Env) (s : ℕ) :
    (env (ApiCall.create_namespaced_config_map "monitoring" configmap) = some s →
      s ≠ 409 →
      (main image_env env).trace.any isDepCreate = false ∧
      (main image_env env).trace.any isSvcCreate = false ∧
      (main image_env env).trace.any isHpaCreate = false) ∧
    (env (ApiCall.create_namespaced_deployment "monitoring"
        (deployment (image_env.getD default_image))) = some s → s ≠ 409 →
      (main image_env env).trace.any isSvcCreate = false ∧
      (main image_env env).trace.any isHpaCreate = false) ∧
    (env (ApiCall.create_namespaced_service "monitoring" service) = some s →
      s ≠ 409 →
      (main image_env env).trace.any isHpaCreate = false) ∧
    (env (ApiCall.read_namespace "monitoring") = some 404 →
      env (ApiCall.create_namespace ⟨⟨"monitoring", []⟩⟩) = some s →
      (main image_env env).trace.any isCmCreate = false ∧
      (main image_env env).trace.any isDepCreate = false ∧
      (main image_env env).trace.any isSvcCreate = false ∧
      (main image_env env).trace.any isHpaCreate = false) ∧
    (env (ApiCall.read_namespace "monitoring") = some s → s ≠ 404 →
      (main image_env env).trace.any isCmCreate = true) := by
  refine ⟨?_, ?_, ?_, ?_, ?_⟩
  · intro h h409
    have hcm := create_configmap_result ApiClient.coreV1Api "monitoring" env s h h409
    refine ⟨?_, ?_, ?_⟩ <;>
      rcases create_namespace_trace ApiClient.coreV1Api "monitoring" env with ht | ht <;>
      by_cases h1 : (create_namespace ApiClient.coreV1Api "monitoring" env).result = none <;>
      rw [main_trace, ht] <;>
      simp [h1, hcm, isDepCreate, isSvcCreate, isHpaCreate, cmEv]
  · intro h h409
    have hdep := create_deployment_result ApiClient.appsV1Api "monitoring"
      (image_env.getD default_image) env s h h409
    refine ⟨?_, ?_⟩ <;>
      rcases create_namespace_trace ApiClient.coreV1Api "monitoring" env with ht | ht <;>
      by_cases h1 : (create_namespace ApiClient.coreV1Api "monitoring" env).result = none <;>
      by_cases h2 : (create_configmap ApiClient.coreV1Api "monitoring" env).result = none <;>
      rw [main_trace, ht] <;>
      simp [h1, h2, hdep, isSvcCreate, isHpaCreate, cmEv, depEv]
  · intro h h409
    have hsvc := create_service_result ApiClient.coreV1Api "monitoring" env s h h409
    rcases create_namespace_trace ApiClient.coreV1Api "monitoring" env with ht | ht <;>
      by_cases h1 : (create_namespace ApiClient.coreV1Api "monitoring" env).result = none <;>
      by_cases h2 : (create_configmap ApiClient.coreV1Api "monitoring" env).result = none <;>
      by_cases h3 : (create_deployment ApiClient.appsV1Api "monitoring"
        (image_env.getD default_image) env).result = none <;>
      rw [main_trace, ht] <;>
      simp [h1, h2, h3, hsvc, isHpaCreate, cmEv, depEv, svcEv]
  · intro h404 h2
    have hns := create_namespace_result_404fail ApiClient.coreV1Api "monitoring" env s h404 h2
    refine ⟨?_, ?_, ?_, ?_⟩ <;>
      rcases create_namespace_trace ApiClient.coreV1Api "monitoring" env with ht | ht <;>
      rw [main_trace, ht] <;>
      simp [hns, isCmCreate, isDepCreate, isSvcCreate, isHpaCreate]
  · intro h h404
    have hns := create_namespace_swallow ApiClient.coreV1Api "monitoring" env s h h404
    rw [main_trace, hns]
    simp [isCmCreate, cmEv]

/-- Claim C3, witness: the amended abort behaviour evaluated on concrete
control planes failing exactly one step each. -/
theorem c3_witness :
    envCmFail (ApiCall.create_namespaced_config_map "monitoring" configmap) = some 500 ∧
    (main none envCmFail).trace.any isDepCreate = false ∧
    (main none envDepFail).trace.any isSvcCreate = false ∧
    (main none envSvcFail).trace.any isHpaCreate = false ∧
    (main none envNsCreateFail).trace.any isCmCreate = false ∧
    (main none env500).trace.any isCmCreate = true := by
  refine ⟨rfl, ?_, ?_, ?_, ?_, ?_⟩
  · exact ((c3_amended none envCmFail 500).1 rfl (by decide)).1
  · exact ((c3_amended none envDepFail 500).2.1 rfl (by decide)).1
  · exact (c3_amended none envSvcFail 500).2.2.1 rfl (by decide)
  · exact ((c3_amended none envNsCreateFail 503).2.2.2.1 rfl rfl).1
  · exact (c3_amended none env500 500).2.2.2.2 rfl (by decide)

/-! ### Claim C4 -/

/-- Claim C4: for each of ConfigMap, Deployment, Service and
AutoscalingPolicy, a create call raising an `ApiException` with status
409 makes the routine return normally with exactly the informational
"already exists" line — the error is not re-raised; consequently, on a
control plane answering 409 to every create, the whole sequence runs to
completion reporting every resource as already existing and no error. -/
theorem c4_conflict_transparency (api : ApiClient) (oapi : Option ApiClient)
    (nspace image_uri : String) (env : Env) :
    (env (ApiCall.create_namespaced_config_map nspace configmap) = some 409 →
      create_configmap api nspace env =
        ⟨[⟨api, ApiCall.create_namespaced_config_map nspace configmap⟩],
          [LogLine.alreadyExists Res.cm], none⟩) ∧
    (env (ApiCall.create_namespaced_deployment nspace (deployment image_uri)) = some 409 →
      create_deployment api nspace image_uri env =
        ⟨[⟨api, ApiCall.create_namespaced_deployment nspace (deployment image_uri)⟩],
          [LogLine.alreadyExists Res.dep], none⟩) ∧
    (env (ApiCall.create_namespaced_service nspace service) = some 409 →
      create_service api nspace env =
        ⟨[⟨api, ApiCall.create_namespaced_service nspace service⟩],
          [LogLine.alreadyExists Res.svc], none⟩) ∧
    (env (ApiCall.create_namespaced_horizontal_pod_autoscaler nspace hpa) = some 409 →
      create_hpa oapi nspace env =
        ⟨[⟨ApiClient.autoscalingV2Api,
            ApiCall.create_namespaced_horizontal_pod_autoscaler nspace hpa⟩],
          [LogLine.alreadyExists Res.hpa], none⟩) ∧
    (∀ image_env : Option String,
      (main image_env envAll409).result = none ∧
      (main image_env envAll409).logs =
        [LogLine.alreadyExists Res.ns, LogLine.alreadyExists Res.cm,
         LogLine.alreadyExists Res.dep, LogLine.alreadyExists Res.svc,
         LogLine.alreadyExists Res.hpa]) := by
  refine ⟨?_, ?_, ?_, ?_, fun image_env => ⟨rfl, rfl⟩⟩
  · intro h
    unfold create_configmap
    simp [h]
  · intro h
    unfold create_deployment
    simp [h]
  · intro h
    unfold create_service
    simp [h]
  · intro h
    unfold create_hpa
    simp [h]

/-- Claim C4, witness: conflict transparency evaluated on the concrete
all-409 control plane. -/
theorem c4_witness :
    envAll409 (ApiCall.create_namespaced_config_map "monitoring" configmap) = some 409 ∧
    create_configmap ApiClient.coreV1Api "monitoring" envAll409 =
      ⟨[⟨ApiClient.coreV1Api, ApiCall.create_namespaced_config_map "monitoring" configmap⟩],
        [LogLine.alreadyExists Res.cm], none⟩ ∧
    create_deployment ApiClient.appsV1Api "monitoring" default_image envAll409 =
      ⟨[⟨ApiClient.appsV1Api,
          ApiCall.create_namespaced_deployment "monitoring" (deployment default_image)⟩],
        [LogLine.alreadyExists Res.dep], none⟩ ∧
    create_service ApiClient.coreV1Api "monitoring" envAll409 =
      ⟨[⟨ApiClient.coreV1Api, ApiCall.create_namespaced_service "monitoring" service⟩],
        [LogLine.alreadyExists Res.svc], none⟩ ∧
    create_hpa none "monitoring" envAll409 =
      ⟨[⟨ApiClient.autoscalingV2Api,
          ApiCall.create_namespaced_horizontal_pod_autoscaler "monitoring" hpa⟩],
        [LogLine.alreadyExists Res.hpa], none⟩ ∧
    (main none envAll409).result = none := by
  refine ⟨rfl, ?_, ?_, ?_, ?_, ?_⟩
  · exact (c4_conflict_transparency ApiClient.coreV1Api none "monitoring"
      default_image envAll409).1 rfl
  · exact (c4_conflict_transparency ApiClient.appsV1Api none "monitoring"
      default_image envAll409).2.1 rfl
  · exact (c4_conflict_transparency ApiClient.coreV1Api none "monitoring"
      default_image envAll409).2.2.1 rfl
  · exact (c4_conflict_transparency ApiClient.coreV1Api none "monitoring"
      default_image envAll409).2.2.2.1 rfl
  · exact ((c4_conflict_transparency ApiClient.coreV1Api none "monitoring"
      default_image envAll409).2.2.2.2 none).1

/-! ### Claim C5 -/

/-- Claim C5: `create_namespace` follows read-then-create.  When the read
probe raises 404 it issues exactly one namespace create call (the trace
is the read followed by one create, whatever the create's outcome); when
the probe returns without error it issues zero create calls and prints
the already-exists line. -/
theorem c5_read_then_create (api : ApiClient) (nspace : String) (env : Env) :
    (env (ApiCall.read_namespace nspace) = none →
      (create_namespace api nspace env).trace =
        [⟨api, ApiCall.read_namespace nspace⟩] ∧
      (create_namespace api nspace env).trace.countP isNsCreate = 0 ∧
      (create_namespace api nspace env).result = none ∧
      (create_namespace api nspace env).logs = [LogLine.alreadyExists Res.ns]) ∧
    (env (ApiCall.read_namespace nspace) = some 404 →
      (create_namespace api nspace env).trace =
        [⟨api, ApiCall.read_namespace nspace⟩,
         ⟨api, ApiCall.create_namespace ⟨⟨nspace, []⟩⟩⟩] ∧
      (create_namespace api nspace env).trace.countP isNsCreate = 1) := by
  constructor
  · intro h
    unfold create_namespace
    simp [h, List.countP, List.countP.go, isNsCreate]
  · intro h
    unfold create_namespace
    cases h2 : env (ApiCall.create_namespace ⟨⟨nspace, []⟩⟩) <;>
      simp [h, h2, List.countP, List.countP.go, isNsCreate]

/-- Claim C5, witness: the read-then-create pattern evaluated on a
control plane where the namespace exists and on one where the probe
raises 404. -/
theorem c5_witness :
    envOk (ApiCall.read_namespace "monitoring") = none ∧
    (create_namespace ApiClient.coreV1Api "monitoring" envOk).trace.countP
      isNsCreate = 0 ∧
    env404 (ApiCall.read_namespace "monitoring") = some 404 ∧
    (create_namespace ApiClient.coreV1Api "monitoring" env404).trace.countP
      isNsCreate = 1 := by
  refine ⟨rfl, ?_, rfl, ?_⟩
  · exact ((c5_read_then_create ApiClient.coreV1Api "monitoring" envOk).1 rfl).2.1
  · exact ((c5_read_then_create ApiClient.coreV1Api "monitoring" env404).2 rfl).2

/-! ### Claim C6 -/

/-- Claim C6: against the ideal control plane, the provisioning sequence
is idempotent — running it twice from any starting cluster state yields
the same final resource set as running it once; the second run returns
normally, reports every resource as already existing, and every mutating
(create) call it issues is answered with a 409 conflict, changing
nothing. -/
theorem c6_idempotent (image_env : Option String) (σ : ClusterState) :
    runState image_env (runState image_env σ) = runState image_env σ ∧
    (main image_env (envOfState (runState image_env σ))).result = none ∧
    (main image_env (envOfState (runState image_env σ))).logs =
      [LogLine.alreadyExists Res.ns, LogLine.alreadyExists Res.cm,
       LogLine.alreadyExists Res.dep, LogLine.alreadyExists Res.svc,
       LogLine.alreadyExists Res.hpa] ∧
    ((main image_env (envOfState (runState image_env σ))).trace.all fun ev =>
      !(isCreateCall ev.call) ||
        (envOfState (runState image_env σ) ev.call == some 409)) = true := by
  refine ⟨by simp [runState_allTrue], ?_, ?_, ?_⟩ <;> rw [runState_allTrue] <;> rfl

/-! ### Claim C7 -/

/-- Claim C7: in every run of `main`, the Deployment create call is never
issued before the ConfigMap create call has completed, and the
AutoscalingPolicy create call is never issued before the Deployment
create call has completed (scanning the issued-call trace, no
Deployment create occurs before a ConfigMap create, and no autoscaler
create occurs before a Deployment create). -/
theorem c7_ordering (image_env : Option String) (env : Env) :
    precedes isCmCreate isDepCreate (main image_env env).trace = true ∧
    precedes isDepCreate isHpaCreate (main image_env env).trace = true := by
  rcases create_namespace_trace ApiClient.coreV1Api "monitoring" env with ht | ht <;>
    by_cases h1 : (create_namespace ApiClient.coreV1Api "monitoring" env).result = none <;>
    by_cases h2 : (create_configmap ApiClient.coreV1Api "monitoring" env).result = none <;>
    by_cases h3 : (create_deployment ApiClient.appsV1Api "monitoring"
      (image_env.getD default_image) env).result = none <;>
    by_cases h4 : (create_service ApiClient.coreV1Api "monitoring" env).result = none <;>
    constructor <;>
    rw [main_trace, ht] <;>
    simp [h1, h2, h3, h4, precedes, isCmCreate, isDepCreate, isHpaCreate,
      cmEv, depEv, svcEv, hpaEv]

/-! ### Claim C9 -/

/-- Claim C9: cross-reference invariants of the produced declarations.
Every call `main` issues targets the namespace "monitoring" passed to
`create_namespace` (and the namespace body itself is named
"monitoring"); the environment variable of every container of the
Deployment references the ConfigMap by its actual name and a key the
ConfigMap actually defines; and the autoscaler's scale target name
equals the Deployment's name, which is "monitoring-app". -/
theorem c9_invariants (image_env : Option String) (env : Env)
    (image_uri : String) :
    ((main image_env env).trace.all fun ev => inNamespace "monitoring" ev.call) = true ∧
    ((deployment image_uri).spec.template.spec.containers.all fun ctr =>
      ctr.env.all fun e =>
        (e.value_from.config_map_key_ref.name == configmap.metadata.name) &&
        ((configmap.data.map Prod.fst).contains
          e.value_from.config_map_key_ref.key)) = true ∧
    hpa.spec.scale_target_ref.name = (deployment image_uri).metadata.name ∧
    hpa.spec.scale_target_ref.name = "monitoring-app" := by
  refine ⟨?_, rfl, rfl, rfl⟩
  rcases create_namespace_trace ApiClient.coreV1Api "monitoring" env with ht | ht <;>
    by_cases h1 : (create_namespace ApiClient.coreV1Api "monitoring" env).result = none <;>
    by_cases h2 : (create_configmap ApiClient.coreV1Api "monitoring" env).result = none <;>
    by_cases h3 : (create_deployment ApiClient.appsV1Api "monitoring"
      (image_env.getD default_image) env).result = none <;>
    by_cases h4 : (create_service ApiClient.coreV1Api "monitoring" env).result = none <;>
    rw [main_trace, ht] <;>
    simp [h1, h2, h3, h4, inNamespace, cmEv, depEv, svcEv, hpaEv]

end Eks

namespace App

/-! ### Claim C8 -/

/-- Claim C8: for every triple of utilization percentages,
`get_alert_message` agrees with the spec-side classifier-based message —
each metric classified independently (`>80` critical, `>60` and `≤80`
warning, else normal), one critical alert listing exactly the critical
metric names if any metric is critical, else one warning listing exactly
the warning names, else the nominal message; in particular at
CPU=90, Mem=70, Disk=10 the critical message names only CPU. -/
theorem c8_alert_classification (c m d : ℚ) :
    get_alert_message c m d = spec_alert_message c m d ∧
    get_alert_message 90 70 10 =
      "🚨 CRITICAL: High CPU usage detected! Consider scaling up or optimizing resources." := by
  constructor
  · by_cases hc1 : c > 80 <;> by_cases hc2 : c > 60 <;>
      by_cases hm1 : m > 80 <;> by_cases hm2 : m > 60 <;>
      by_cases hd1 : d > 80 <;> by_cases hd2 : d > 60 <;>
      simp [get_alert_message, spec_alert_message, classify, critical_names,
        warning_names, hc1, hc2, hm1, hm2, hd1, hd2]
  · have h1 : (90 : ℚ) > 80 := by norm_num
    have h2 : (70 : ℚ) > 60 := by norm_num
    have h3 : ¬ (70 : ℚ) > 80 := by norm_num
    have h4 : ¬ (10 : ℚ) > 80 := by norm_num
    have h5 : ¬ (10 : ℚ) > 60 := by norm_num
    simp [get_alert_message, h1, h2, h3, h4, h5]
    rfl

/-! ### Claim C10 -/

/-- Claim C10: when the disk probe fails, `get_disk_usage` returns 0
instead of raising, so `api_metrics` reports 0% disk utilization for
that request — a value the alert classifier treats as normal. -/
theorem c10_disk_failure_reports_zero (ts : String) (cp mp : ℚ)
    (mt ma cc : ℕ) (la : List ℚ) :
    get_disk_usage none = 0 ∧
    (api_metrics ⟨ts, cp, mp, none, mt, ma, cc, la⟩).disk_percent = 0 ∧
    classify 0 = Level.normal := by
  refine ⟨rfl, rfl, ?_⟩
  norm_num [classify]

end App

end CloudMonitoring
